import Mathlib

/-!
# Verification of the EDC Studio backend connector lifecycle

Shallow embedding of the connector-management services of the EDC Studio
backend (`app/services/connectors_service.py`,
`app/services/edc_launcher_service.py`, `app/services/transfers_service.py`,
`app/routes/transfers_routes.py`, `app/models/connector.py`).

External collaborators (the Mongo record store, the Docker engine, the
PostgreSQL server, local TCP sockets, the upstream connector management API)
are modelled as explicit inputs: the record store is a list of connector
documents, the set of live host ports / live container names is a list, and
each fallible external step is an oracle value describing its outcome.
-/

set_option autoImplicit false

namespace EdcStudio

/-- `type` field of a connector document: `Literal["provider", "consumer"]`. -/
inductive CType where
  | provider
  | consumer
deriving DecidableEq

/-- `mode` field: `Literal["managed", "remote"]`. -/
inductive Mode where
  | managed
  | remote
deriving DecidableEq

/-- `state` field: `Literal["running", "stopped"]`. -/
inductive CState where
  | running
  | stopped
deriving DecidableEq

/-- `PortConfig` from `app/models/connector.py`: the six mandatory port
fields of a managed connector. -/
structure PortConfig where
  http : Nat
  management : Nat
  protocol : Nat
  control : Nat
  public : Nat
  version : Nat
deriving DecidableEq

/-- `Endpoints` from `app/models/connector.py`: management URL mandatory,
protocol and public URLs optional. -/
structure Endpoints where
  management : String
  protocol : Option String
  public : Option String
deriving DecidableEq

/-- `Connector` from `app/models/connector.py`, as stored in the record
store.  `id` is the string form of the Mongo `_id`.  `ports`, `api_key`,
`endpoints_url` and `domain` are optional exactly as in the Pydantic model:
nothing in the model ties them to `mode`. -/
structure Connector where
  id : String
  name : String
  type : CType
  ports : Option PortConfig
  api_key : Option String
  state : CState
  mode : Mode
  endpoints_url : Option Endpoints
  domain : Option String
deriving DecidableEq

/-- The list `ports_to_check` built in `check_ports_unique`: the six port
values of the candidate, in source order. -/
def portsToCheck (p : PortConfig) : List Nat :=
  [p.http, p.management, p.protocol, p.control, p.public, p.version]

/-- One stored document matching the Mongo query of `check_ports_unique`.
The query is `$or` over `ports.http == cand.http`, `ports.management ==
cand.management`, ..., i.e. each candidate field is compared with the SAME
field of the stored document; a document whose `ports` is null matches no
clause. -/
def matchesPortQuery (cand : PortConfig) (c : Connector) : Bool :=
  match c.ports with
  | none => false
  | some p =>
      p.http == cand.http || p.management == cand.management ||
      p.protocol == cand.protocol || p.control == cand.control ||
      p.public == cand.public || p.version == cand.version

/-- The loop over `ports_to_check` in `check_ports_unique` testing
`is_port_in_use`: first candidate port live on the host, in source order.
`live` is the observed set of host ports accepting TCP connections. -/
def firstLivePort (live : List Nat) : List Nat → Option Nat
  | [] => none
  | q :: rest => if live.contains q then some q else firstLivePort live rest

/-- `check_ports_unique` from `app/services/connectors_service.py`.
Returns immediately when the candidate has no port set; otherwise raises on
a stored same-field match, then on the first candidate port live on the
host. -/
def check_ports_unique (live : List Nat) (db : List Connector)
    (c : Connector) : Except String Unit :=
  match c.ports with
  | none => Except.ok ()
  | some p =>
      if db.any (matchesPortQuery p) then
        Except.error "One or more ports are already in use."
      else
        match firstLivePort live (portsToCheck p) with
        | some q =>
            Except.error ("Port " ++ toString q ++
              " is already in use on this machine.")
        | none => Except.ok ()

/-- `create_connector` from `app/services/connectors_service.py`: run the
port check, then insert the document.  On error nothing is inserted. -/
def create_connector (live : List Nat) (db : List Connector)
    (c : Connector) : Except String (List Connector) :=
  match check_ports_unique live db c with
  | Except.error e => Except.error e
  | Except.ok _ => Except.ok (db ++ [c])

/-- Two port sets share at least one port value, in any field pairing. -/
def portSetsIntersect (p q : PortConfig) : Bool :=
  (portsToCheck p).any (fun x => (portsToCheck q).contains x)

/-- String form of the `type` field, as interpolated into f-strings. -/
def typeStr : CType → String
  | CType.provider => "provider"
  | CType.consumer => "consumer"

/-- Expected container name of a managed instance, the f-string
`edc-{c.type}-{c._id}` used by `get_all_connectors`. -/
def containerName (c : Connector) : String :=
  "edc-" ++ typeStr c.type ++ "-" ++ c.id

/-- Body of the reconciliation loop of `get_all_connectors`: a managed
document's state is overwritten from the observed container set (and
persisted); documents in other modes are untouched. -/
def reconcileOne (active : List String) (c : Connector) : Connector :=
  if c.mode = Mode.managed then
    if active.contains (containerName c) then
      { c with state := CState.running }
    else
      { c with state := CState.stopped }
  else c

/-- `get_all_connectors` from `app/services/connectors_service.py`,
restricted to its reconciliation effect: every stored document is passed
through `reconcileOne` against the observed live-container names (`docker ps
--format ...`; the empty list when the engine is unreachable). -/
def get_all_connectors (active : List String) (db : List Connector) :
    List Connector :=
  db.map (reconcileOne active)

/-- `_run_docker_compose` from `app/services/edc_launcher_service.py`,
modelled on the state of the relational server.  `runtimeExists` is the
existence of the top-level `runtime` directory; `pgUp` the outcome of
`_wait_for_postgres` (false: 30s timeout elapsed); `dbs` the list of
existing database names (`pg_database`); `scriptExists` the existence of
`config/init.sql`; `launchOk` the outcome of `docker compose up -d`.
Step order as in the source: runtime check, wait, create-if-absent,
init-script check/run, compose up.  Individual init-script statement
failures are logged and skipped, never raised, so they do not appear as a
failure mode here.  Returns the outcome and the resulting database list. -/
def _run_docker_compose (runtimeExists pgUp scriptExists launchOk : Bool)
    (dbs : List String) (db_name : String) :
    Except String Unit × List String :=
  if runtimeExists = false then
    (Except.error "El directorio runtime no existe.", dbs)
  else if pgUp = false then
    (Except.error "PostgreSQL no disponible tras esperar 30 segundos.", dbs)
  else
    let dbs' := if dbs.contains db_name then dbs else dbs ++ [db_name]
    if scriptExists = false then
      (Except.error "No se encontro el archivo config/init.sql", dbs')
    else if launchOk = false then
      (Except.error "docker compose up failed", dbs')
    else
      (Except.ok (), dbs')

/-- `start_edc_service` from `app/services/connectors_service.py`.  All
fallible sub-steps — `_generate_files`, `_create_docker_network_if_not_exists`,
and `_run_docker_compose` (database provisioning + `docker compose up`) —
run inside one `try`; the `state = running` record update is the last
statement of the `try`, and any exception is re-raised as
`RuntimeError("Failed to start connector: ...")`.  `gen` and `net` are the
outcomes of the first two steps; the `_run_docker_compose` step runs the
definition above on the database name `edc_{type}_{id}`.  Returns the
raised/ok outcome, the resulting database list, and the persisted
document. -/
def start_edc_service (gen net : Except String Unit)
    (runtimeExists pgUp scriptExists launchOk : Bool)
    (dbs : List String) (c : Connector) :
    Except String Unit × List String × Connector :=
  match gen with
  | Except.error e =>
      (Except.error ("Failed to start connector: " ++ e), dbs, c)
  | Except.ok _ =>
      match net with
      | Except.error e =>
          (Except.error ("Failed to start connector: " ++ e), dbs, c)
      | Except.ok _ =>
          let r := _run_docker_compose runtimeExists pgUp scriptExists
            launchOk dbs ("edc_" ++ typeStr c.type ++ "_" ++ c.id)
          match r.1 with
          | Except.error e =>
              (Except.error ("Failed to start connector: " ++ e), r.2, c)
          | Except.ok _ =>
              (Except.ok (), r.2, { c with state := CState.running })

instance {ε α : Type} [DecidableEq ε] [DecidableEq α] :
    DecidableEq (Except ε α) := fun a b =>
  match a, b with
  | Except.ok x, Except.ok y =>
      if h : x = y then isTrue (by rw [h]) else
        isFalse (by intro hc; cases hc; exact h rfl)
  | Except.error x, Except.error y =>
      if h : x = y then isTrue (by rw [h]) else
        isFalse (by intro hc; cases hc; exact h rfl)
  | Except.ok _, Except.error _ => isFalse (by intro hc; cases hc)
  | Except.error _, Except.ok _ => isFalse (by intro hc; cases hc)

/-- Result of a `stop`/`delete` style operation: the outcome, whether a
container teardown was issued, and the persisted state afterwards. -/
structure StopResult where
  outcome : Except String Unit
  teardownIssued : Bool
  state : CState
deriving DecidableEq

/-- `stop_edc_service` from `app/services/connectors_service.py`.  `fs` is
the set of connector ids owning a `runtime/{id}` directory.  When the
directory is missing the function raises `ValueError("Runtime folder does
not exist")` before any teardown or record update; otherwise it issues
`docker compose down` (unchecked) and persists `state = stopped`. -/
def stop_edc_service (fs : List String) (id : String) (st : CState) :
    StopResult :=
  if fs.contains id then
    { outcome := Except.ok (), teardownIssued := true,
      state := CState.stopped }
  else
    { outcome := Except.error "Runtime folder does not exist",
      teardownIssued := false, state := st }

/-- Result of `delete_connector`: outcome, remaining runtime directories,
remaining stored records (by id). -/
structure DeleteOutcome where
  outcome : Except String Unit
  fs : List String
  records : List String
deriving DecidableEq

/-- Remove every occurrence of a path/id from a list (`shutil.rmtree`,
`delete_one`). -/
def removeAll (xs : List String) (x : String) : List String :=
  xs.filter (fun q => q ≠ x)

/-- `delete_connector` from `app/services/connectors_service.py`.  If the
`runtime/{id}` directory is missing, raise before touching anything.
Otherwise `shutil.rmtree` the directory first, then attempt the record
deletion: `dbOk = false` models the store call itself failing (records
untouched), and a `deleted_count == 0` result (id not among the records)
raises `ValueError("Connector not found")`. -/
def delete_connector (dbOk : Bool) (fs records : List String)
    (id : String) : DeleteOutcome :=
  if fs.contains id then
    let fs' := removeAll fs id
    if dbOk then
      if records.contains id then
        { outcome := Except.ok (), fs := fs',
          records := removeAll records id }
      else
        { outcome := Except.error "Connector not found", fs := fs',
          records := records }
    else
      { outcome := Except.error "record store failure", fs := fs',
        records := records }
  else
    { outcome := Except.error "Runtime folder does not exist", fs := fs,
      records := records }

/-- Runtime filesystem paths written by `_generate_files` for one
connector id, relative to `runtime/{id}`. -/
def configDir (id : String) : String :=
  "runtime/" ++ id ++ "/resources/configuration"

/-- The `resources/certs` directory of one instance. -/
def certsDir (id : String) : String :=
  "runtime/" ++ id ++ "/resources/certs"

/-- The generated `config.properties` file of one instance. -/
def configPath (id : String) : String :=
  "runtime/" ++ id ++ "/resources/configuration/config.properties"

/-- The generated PKCS#12 keystore of one instance. -/
def certPath (id : String) : String :=
  "runtime/" ++ id ++ "/resources/certs/cert.pfx"

/-- The generated `docker-compose.yml` of one instance. -/
def composePath (id : String) : String :=
  "runtime/" ++ id ++ "/docker-compose.yml"

/-- The generated nginx proxy configuration of one instance. -/
def nginxConfPath (id : String) : String :=
  "runtime/" ++ id ++ "/nginx/edc-proxy.conf"

/-- `mkdir -p` / `write_text`: add a path if not present. -/
def addPath (fs : List String) (p : String) : List String :=
  if fs.contains p then fs else fs ++ [p]

/-- Result of `_generate_files`: outcome, filesystem contents, the
`-storepass`/`-keypass` value handed to `keytool` (when invoked), and the
`EDC_KEYSTORE_PASSWORD` value written into `docker-compose.yml` (when that
file was written). -/
structure GenResult where
  outcome : Except String Unit
  fs : List String
  keytoolStorepass : Option String
  composeEnvPassword : Option String

/-- `_generate_files` from `app/services/edc_launcher_service.py`, on an
abstract filesystem (list of paths).  Source order: create the
configuration and certs directories, write `config.properties`, unlink a
pre-existing `cert.pfx`, run `keytool` (both `-storepass` and `-keypass`
set to the module-level `keystore_password`, here the explicit `pw`
argument, generated once per process), then write `docker-compose.yml`
(whose environment carries `EDC_KEYSTORE_PASSWORD={pw}`) and the nginx
proxy configuration.  A `keytool` failure raises `RuntimeError` at that
point; nothing written earlier is cleaned up. -/
def _generate_files (pw : String) (keytoolOk : Bool) (fs : List String)
    (id : String) : GenResult :=
  let fs1 := addPath (addPath fs (configDir id)) (certsDir id)
  let fs2 := addPath fs1 (configPath id)
  let fs3 := removeAll fs2 (certPath id)
  if keytoolOk = false then
    { outcome := Except.error "keytool failed", fs := fs3,
      keytoolStorepass := some pw, composeEnvPassword := none }
  else
    let fs4 := addPath fs3 (certPath id)
    let fs5 := addPath fs4 (composePath id)
    let fs6 := addPath fs5 (nginxConfPath id)
    { outcome := Except.ok (), fs := fs6,
      keytoolStorepass := some pw, composeEnvPassword := some pw }

/-- One upstream HTTP response from a connector management API. -/
structure HttpResponse where
  status : Nat
  bodyText : String
deriving DecidableEq

/-- Errors raised by the transfers service / routes: `ValueError`,
`TypeError` (subscripting a missing `ports`/`endpoints_url`), and FastAPI's
`HTTPException(status_code, detail)`. -/
inductive ServiceError where
  | valueError (msg : String)
  | typeError
  | httpError (statusCode : Nat) (detail : String)
deriving DecidableEq

/-- `httpx.Response.raise_for_status` raises exactly on non-2xx. -/
def is2xx (s : Nat) : Bool :=
  decide (200 ≤ s) && decide (s < 300)

/-- Python `str.rstrip('/')`. -/
def rstripSlash (s : String) : String :=
  String.mk ((s.data.reverse.dropWhile (fun c => c = '/')).reverse)

/-- `get_base_url` from `app/util/edc_helpers.py` for a managed connector:
`tlocal` is `os.getenv("TYPE") == "localhost"`. -/
def get_base_url (tlocal : Bool) (c : Connector) (p : PortConfig)
    (path : String) : String :=
  if tlocal then
    "http://localhost:" ++ toString p.management ++ "/management" ++ path
  else
    "http://edc-" ++ typeStr c.type ++ "-" ++ c.id ++ ":" ++
      toString p.management ++ "/management" ++ path

/-- Management URL built for the consumer by the transfers-service client
functions: `get_base_url` when managed (raising `TypeError` when `ports` is
null), `endpoints_url.management.rstrip('/') + path` when remote (raising
`TypeError` when `endpoints_url` is null). -/
def consumerManagementUrl (tlocal : Bool) (c : Connector) (path : String) :
    Except ServiceError String :=
  match c.mode with
  | Mode.managed =>
      match c.ports with
      | some p => Except.ok (get_base_url tlocal c p path)
      | none => Except.error ServiceError.typeError
  | Mode.remote =>
      match c.endpoints_url with
      | some e => Except.ok (rstripSlash e.management ++ path)
      | none => Except.error ServiceError.typeError

/-- Protocol URL built for the provider by the transfers-service client
functions: the container DNS address when managed, the raw
`endpoints_url.protocol` f-string when remote (interpolating a missing
value as `"None"`, not raising). -/
def providerProtocolUrl (p : Connector) : Except ServiceError String :=
  match p.mode with
  | Mode.managed =>
      match p.ports with
      | some ps =>
          Except.ok ("http://edc-provider-" ++ p.id ++ ":" ++
            toString ps.protocol ++ "/protocol")
      | none => Except.error ServiceError.typeError
  | Mode.remote =>
      match p.endpoints_url with
      | some e =>
          Except.ok (match e.protocol with | some u => u | none => "None")
      | none => Except.error ServiceError.typeError

/-- Python truthiness of the `api_key` field: `if not api_key`. -/
def apiKeyMissing (c : Connector) : Bool :=
  match c.api_key with
  | none => true
  | some s => s.isEmpty

/-- `catalog_request_curl` from `app/services/transfers_service.py`: build
the consumer management URL and provider protocol URL, check the API key,
issue exactly one POST, return the body on 2xx, and on non-2xx raise
`HTTPException(upstream status, "EDC error: " + upstream body)`. -/
def catalog_request_curl (tlocal : Bool) (consumer provider : Connector)
    (resp : HttpResponse) : Except ServiceError String :=
  match consumerManagementUrl tlocal consumer "/v3/catalog/request" with
  | Except.error e => Except.error e
  | Except.ok _ =>
      match providerProtocolUrl provider with
      | Except.error e => Except.error e
      | Except.ok _ =>
          if apiKeyMissing consumer then
            Except.error (ServiceError.httpError 500
              "Connector API key not configured")
          else if is2xx resp.status then
            Except.ok resp.bodyText
          else
            Except.error (ServiceError.httpError resp.status
              ("EDC error: " ++ resp.bodyText))

/-- `str(e)` applied to the service errors by the route handlers
(starlette's `HTTPException.__str__` is `f"{status_code}: {detail}"`). -/
def errStr : ServiceError → String
  | ServiceError.valueError m => m
  | ServiceError.typeError => "TypeError"
  | ServiceError.httpError c d => toString c ++ ": " ++ d

/-- `catalog_request` from `app/routes/transfers_routes.py`: `ValueError`
becomes a 404; every other exception — including the service's own
`HTTPException` carrying the upstream status — is caught by the
`except Exception` clause and re-raised as
`HTTPException(500, "Failed to fetch catalog: " + str(e))`. -/
def catalog_request (tlocal : Bool) (consumer provider : Connector)
    (resp : HttpResponse) : Except ServiceError String :=
  match catalog_request_curl tlocal consumer provider resp with
  | Except.ok v => Except.ok v
  | Except.error (ServiceError.valueError m) =>
      Except.error (ServiceError.httpError 404 m)
  | Except.error e =>
      Except.error (ServiceError.httpError 500
        ("Failed to fetch catalog: " ++ errStr e))

/-- `check_transfer_data_curl_pull` from
`app/services/transfers_service.py` (pull-address resolution): same
single-call shape as `catalog_request_curl`, path
`/v3/edrs/{transfer_process_id}/dataaddress`. -/
def check_transfer_data_curl_pull (tlocal : Bool) (consumer : Connector)
    (tp : String) (resp : HttpResponse) : Except ServiceError String :=
  match consumerManagementUrl tlocal consumer
      ("/v3/edrs/" ++ tp ++ "/dataaddress") with
  | Except.error e => Except.error e
  | Except.ok _ =>
      if apiKeyMissing consumer then
        Except.error (ServiceError.httpError 500
          "Connector API key not configured")
      else if is2xx resp.status then
        Except.ok resp.bodyText
      else
        Except.error (ServiceError.httpError resp.status
          ("EDC error: " ++ resp.bodyText))

/-- `check_data_pull` from `app/routes/transfers_routes.py`: the only
transfers route without an `except Exception` catch-all, so the service's
`HTTPException` (with the upstream status) propagates unchanged; only
`ValueError` is mapped to 404. -/
def check_data_pull (tlocal : Bool) (consumer : Connector) (tp : String)
    (resp : HttpResponse) : Except ServiceError String :=
  match check_transfer_data_curl_pull tlocal consumer tp resp with
  | Except.error (ServiceError.valueError m) =>
      Except.error (ServiceError.httpError 404 m)
  | r => r

/-! ## Concrete instances for witnesses and counterexamples -/

/-- Port set of the sample stored provider. -/
def pA : PortConfig :=
  { http := 8181, management := 8282, protocol := 8383, control := 8484,
    public := 8585, version := 8686 }

/-- Candidate port set whose `management` port equals `pA.http` but which
matches no field of `pA` in the same position. -/
def pB : PortConfig :=
  { http := 9001, management := 8181, protocol := 9003, control := 9004,
    public := 9005, version := 9006 }

/-- Candidate port set sharing its `http` port with `pA.http` (same
field). -/
def pC : PortConfig :=
  { http := 8181, management := 9102, protocol := 9103, control := 9104,
    public := 9105, version := 9106 }

/-- A stored managed provider instance. -/
def connA : Connector :=
  { id := "a1", name := "A", type := CType.provider, ports := some pA,
    api_key := some "keyA", state := CState.stopped, mode := Mode.managed,
    endpoints_url := none, domain := none }

/-- A managed consumer whose ports collide with `connA`'s only across
fields (its `management` is `connA`'s `http`). -/
def connB : Connector :=
  { id := "b2", name := "B", type := CType.consumer, ports := some pB,
    api_key := some "keyB", state := CState.stopped, mode := Mode.managed,
    endpoints_url := none, domain := none }

/-- A managed consumer whose `http` port equals `connA`'s `http` port. -/
def connC : Connector :=
  { id := "c3", name := "C", type := CType.consumer, ports := some pC,
    api_key := some "keyC", state := CState.stopped, mode := Mode.managed,
    endpoints_url := none, domain := none }

/-- A managed connector with no port set and no endpoint set at all, as the
Pydantic model happily admits. -/
def connNoPorts : Connector :=
  { id := "d4", name := "D", type := CType.provider, ports := none,
    api_key := none, state := CState.stopped, mode := Mode.managed,
    endpoints_url := none, domain := none }

/-! ## Claim theorems -/

/-- C1 (counterexample): a creation request whose port set shares the value
8181 with the stored managed instance `connA` — in the cross-field pairing
candidate-`management` = stored-`http` — is accepted and inserted by
`create_connector` (no live host port), so two stored managed instances end
up with intersecting port sets.  This refutes the claim that any shared
port value, in any field pairing, yields a Conflict. -/
theorem C1_cross_field_collision_accepted :
    create_connector [] [connA] connB = Except.ok [connA, connB] ∧
    portSetsIntersect pA pB = true ∧
    connA.mode = Mode.managed ∧ connB.mode = Mode.managed ∧
    connA.ports = some pA ∧ connB.ports = some pB := by
  decide

/-- C1 (amended): `create_connector` fails with a Conflict error — and does
not insert — exactly on the collisions `check_ports_unique` looks for: a
candidate port equal to the port stored in the SAME field of some existing
document, or a candidate port observed live on the host. -/
theorem C1_same_field_conflict_rejected (live : List Nat)
    (db : List Connector) (c : Connector) (p : PortConfig)
    (hp : c.ports = some p) :
    (db.any (matchesPortQuery p) = true →
      create_connector live db c =
        Except.error "One or more ports are already in use.") ∧
    (∀ q, db.any (matchesPortQuery p) = false →
      firstLivePort live (portsToCheck p) = some q →
      create_connector live db c =
        Except.error ("Port " ++ toString q ++
          " is already in use on this machine.")) := by
  constructor
  · intro h
    simp [create_connector, check_ports_unique, hp, h]
  · intro q h hq
    simp [create_connector, check_ports_unique, hp, h, hq]

/-- C1 witness: the same-field collision `connC` (its `http` equals
`connA`'s `http`) is rejected. -/
theorem C1_same_field_conflict_rejected_witness :
    create_connector [] [connA] connC =
      Except.error "One or more ports are already in use." :=
  (C1_same_field_conflict_rejected [] [connA] connC pC rfl).1 (by decide)

/-- C2: `start_edc_service` persists `state = running` exactly when every
sub-step (artifact generation, network creation, database provisioning,
container launch) succeeds; any sub-step failure raises and leaves the
persisted document untouched — in particular its state is never set to
`running` by a failed start. -/
theorem C2_start_sets_running_iff_all_steps_succeed
    (gen net : Except String Unit) (re pg se lo : Bool)
    (dbs : List String) (c : Connector) :
    (gen = Except.ok () → net = Except.ok () → re = true → pg = true →
      se = true → lo = true →
      (start_edc_service gen net re pg se lo dbs c).1 = Except.ok () ∧
      (start_edc_service gen net re pg se lo dbs c).2.2 =
        { c with state := CState.running }) ∧
    (∀ e,
      (start_edc_service gen net re pg se lo dbs c).1 = Except.error e →
      (start_edc_service gen net re pg se lo dbs c).2.2 = c) := by
  constructor
  · intro h1 h2 h3 h4 h5 h6
    subst h1; subst h2; subst h3; subst h4; subst h5; subst h6
    constructor <;> simp [start_edc_service, _run_docker_compose]
  · intro e h
    cases gen with
    | error e1 => rfl
    | ok u =>
        cases net with
        | error e2 => rfl
        | ok v =>
            cases re <;> cases pg <;> cases se <;> cases lo <;>
              simp_all [start_edc_service, _run_docker_compose]

/-- C2 witness: a start whose artifact-generation step fails raises and
leaves the stored document unchanged. -/
theorem C2_start_sets_running_iff_all_steps_succeed_witness :
    (start_edc_service (Except.error "keytool failed") (Except.ok ())
      true true true true [] connA).2.2 = connA :=
  (C2_start_sets_running_iff_all_steps_succeed
      (Except.error "keytool failed") (Except.ok ()) true true true true
      [] connA).2 "Failed to start connector: keytool failed" rfl

/-- C3: after the reconciliation pass of `get_all_connectors` (which maps
`reconcileOne` over the stored documents), every managed instance has state
`running` iff its expected container name `edc-{type}-{id}` is among the
observed live container names, and remote instances are returned
unchanged. -/
theorem C3_reconciliation (active : List String) (db : List Connector) :
    get_all_connectors active db = db.map (reconcileOne active) ∧
    (∀ c, c ∈ db → c.mode = Mode.managed →
      ((reconcileOne active c).state = CState.running ↔
        active.contains (containerName c) = true)) ∧
    (∀ c, c ∈ db → c.mode = Mode.remote → reconcileOne active c = c) := by
  refine ⟨rfl, ?_, ?_⟩
  · intro c _ hm
    rw [reconcileOne, if_pos hm]
    cases h : active.contains (containerName c) with
    | true => simp [h]
    | false => simp [h]
  · intro c _ hm
    simp [reconcileOne, hm]

/-- C3 witness: with `connA`'s container observed live, reconciliation
marks `connA` running. -/
theorem C3_reconciliation_witness :
    (reconcileOne ["edc-provider-a1"] connA).state = CState.running :=
  ((C3_reconciliation ["edc-provider-a1"] [connA]).2.1 connA
    (by simp) rfl).mpr (by decide)

/-- C4: `stop_edc_service` on an instance whose runtime directory does not
exist fails with the `Runtime folder does not exist` error before any side
effect: no container teardown is issued and the persisted state is
unchanged. -/
theorem C4_stop_not_provisioned (fs : List String) (id : String)
    (st : CState) (h : fs.contains id = false) :
    stop_edc_service fs id st =
      { outcome := Except.error "Runtime folder does not exist",
        teardownIssued := false, state := st } := by
  unfold stop_edc_service
  rw [if_neg]
  simp_all

/-- C4 witness: stopping a never-provisioned instance fails without side
effects. -/
theorem C4_stop_not_provisioned_witness :
    stop_edc_service [] "a1" CState.running =
      { outcome := Except.error "Runtime folder does not exist",
        teardownIssued := false, state := CState.running } :=
  C4_stop_not_provisioned [] "a1" CState.running rfl

/-- C5: the database-provisioning step of `_run_docker_compose` is
idempotent.  Starting from a server without the schema, the first run
succeeds and creates it exactly once, and a second run with the same name
succeeds without error and leaves the database list unchanged. -/
theorem C5_provisioning_idempotent (dbs : List String) (name : String)
    (h : dbs.contains name = false) :
    (_run_docker_compose true true true true dbs name).1 = Except.ok () ∧
    (_run_docker_compose true true true true
        (_run_docker_compose true true true true dbs name).2 name).1 =
      Except.ok () ∧
    (_run_docker_compose true true true true
        (_run_docker_compose true true true true dbs name).2 name).2 =
      (_run_docker_compose true true true true dbs name).2 ∧
    (_run_docker_compose true true true true dbs name).2.count name = 1 := by
  have hnm : name ∉ dbs := by simpa using h
  have h1 : _run_docker_compose true true true true dbs name =
      (Except.ok (), dbs ++ [name]) := by
    simp [_run_docker_compose, hnm]
  have hc : (dbs ++ [name]).contains name = true := by
    simp
  have h2 : _run_docker_compose true true true true (dbs ++ [name]) name =
      (Except.ok (), dbs ++ [name]) := by
    simp [_run_docker_compose, hc]
  have h0 : dbs.count name = 0 := by
    rw [List.count_eq_zero]
    intro hm
    rw [← List.elem_iff] at hm
    simp_all
  refine ⟨by rw [h1], by rw [h1]; exact congrArg Prod.fst h2,
    by rw [h1]; exact congrArg Prod.snd h2, ?_⟩
  rw [h1]
  simp [h0]

/-- C5 witness: provisioning a fresh schema name twice yields exactly one
schema. -/
theorem C5_provisioning_idempotent_witness :
    (_run_docker_compose true true true true [] "edc_provider_a1").2.count
      "edc_provider_a1" = 1 :=
  (C5_provisioning_idempotent [] "edc_provider_a1" rfl).2.2.2

/-- Two instance-scoped paths with suffixes of different lengths are
distinct. -/
theorem runtimePath_ne_of_suffix_length (id a b : String)
    (h : a.length ≠ b.length) :
    "runtime/" ++ id ++ a ≠ "runtime/" ++ id ++ b := by
  intro hEq
  have hl := congrArg String.length hEq
  rw [String.length_append, String.length_append, String.length_append,
    String.length_append] at hl
  omega

/-- The configuration file and the keystore file of one instance have
different paths. -/
theorem configPath_ne_certPath (id : String) :
    configPath id ≠ certPath id :=
  runtimePath_ne_of_suffix_length id
    "/resources/configuration/config.properties"
    "/resources/certs/cert.pfx" (by decide)

/-- The configuration directory and the keystore file of one instance have
different paths. -/
theorem configDir_ne_certPath (id : String) :
    configDir id ≠ certPath id :=
  runtimePath_ne_of_suffix_length id
    "/resources/configuration" "/resources/certs/cert.pfx" (by decide)

/-- Adding a path makes it present. -/
theorem contains_addPath_self (fs : List String) (p : String) :
    (addPath fs p).contains p = true := by
  unfold addPath
  cases h : fs.contains p with
  | true => simp_all
  | false => simp_all

/-- Adding a path keeps every present path present. -/
theorem contains_addPath_of (fs : List String) (p q : String)
    (h : fs.contains q = true) : (addPath fs p).contains q = true := by
  unfold addPath
  cases hf : fs.contains p with
  | true => simp_all
  | false => simp_all

/-- Removing a path removes it. -/
theorem contains_removeAll_self (xs : List String) (x : String) :
    (removeAll xs x).contains x = false := by
  unfold removeAll
  simp

/-- Removing one path keeps every other present path present. -/
theorem contains_removeAll_of_ne (xs : List String) (x y : String)
    (hne : y ≠ x) (h : xs.contains y = true) :
    (removeAll xs x).contains y = true := by
  unfold removeAll
  simp_all [List.mem_filter]

/-- C6 (counterexample): at a concrete instance, a `_generate_files` run
whose keystore generation fails does raise, but the runtime directory tree
and the rendered `config.properties` written before the `keytool` step
remain on the filesystem — refuting the claim that no configuration file or
runtime directory is left behind. -/
theorem C6_partial_artifacts_remain :
    (_generate_files "pw0" false [] "a1").outcome =
      Except.error "keytool failed" ∧
    (_generate_files "pw0" false [] "a1").fs.contains
      (configPath "a1") = true ∧
    (_generate_files "pw0" false [] "a1").fs.contains
      (configDir "a1") = true := by
  decide

/-- C6 (amended): when keystore generation fails, `_generate_files` aborts
with an error and writes no keystore (and, unless they pre-existed, no
compose descriptor), but the configuration directory and the rendered
`config.properties` remain on the filesystem, referencable by a subsequent
start or stop attempt. -/
theorem C6_keystore_failure_aborts_but_keeps_config (pw : String)
    (fs : List String) (id : String) :
    (_generate_files pw false fs id).outcome =
      Except.error "keytool failed" ∧
    (_generate_files pw false fs id).fs.contains (configPath id) = true ∧
    (_generate_files pw false fs id).fs.contains (configDir id) = true ∧
    (_generate_files pw false fs id).fs.contains (certPath id) = false := by
  refine ⟨rfl, ?_, ?_, ?_⟩
  · exact contains_removeAll_of_ne _ _ _ (configPath_ne_certPath id)
      (contains_addPath_self _ _)
  · exact contains_removeAll_of_ne _ _ _ (configDir_ne_certPath id)
      (contains_addPath_of _ _ _ (contains_addPath_of _ _ _
        (contains_addPath_self _ _)))
  · exact contains_removeAll_self _ _

/-- C7 (counterexample): at a concrete input — consumer `connB`, provider
`connA`, upstream answering 404 with body `no catalog` — the error the
`catalog_request` route surfaces to the caller has status 500, not the
upstream 404, because the route's `except Exception` catch-all re-wraps the
service's `HTTPException`.  Neither the plain-body nor the prefixed-body
reading of "carries the upstream status and body" matches what is
surfaced. -/
theorem C7_route_rewraps_upstream_error :
    catalog_request true connB connA
        { status := 404, bodyText := "no catalog" } =
      Except.error (ServiceError.httpError 500
        "Failed to fetch catalog: 404: EDC error: no catalog") ∧
    catalog_request true connB connA
        { status := 404, bodyText := "no catalog" } ≠
      Except.error (ServiceError.httpError 404 "no catalog") ∧
    catalog_request true connB connA
        { status := 404, bodyText := "no catalog" } ≠
      Except.error (ServiceError.httpError 404 "EDC error: no catalog") := by
  decide

/-- C7 (amended): on a non-2xx upstream response (with a well-formed
consumer/provider record and a configured API key), the service-level
client raises an `HTTPException` carrying the upstream status code and the
upstream body prefixed with `EDC error: `, and no retry is performed (the
embedding consumes exactly one response).  The `catalog_request` route then
re-wraps that error as a 500 whose detail merely embeds the upstream status
and body via `str(e)`; only the `check_data_pull` route, which lacks the
catch-all, surfaces the upstream status code itself. -/
theorem C7_upstream_error_surfacing (tlocal : Bool)
    (consumer provider : Connector) (resp : HttpResponse) (tp u v : String)
    (hcu : consumerManagementUrl tlocal consumer "/v3/catalog/request" =
      Except.ok u)
    (hpu : providerProtocolUrl provider = Except.ok v)
    (hkey : apiKeyMissing consumer = false)
    (hs : is2xx resp.status = false) :
    catalog_request_curl tlocal consumer provider resp =
      Except.error (ServiceError.httpError resp.status
        ("EDC error: " ++ resp.bodyText)) ∧
    catalog_request tlocal consumer provider resp =
      Except.error (ServiceError.httpError 500
        ("Failed to fetch catalog: " ++
          errStr (ServiceError.httpError resp.status
            ("EDC error: " ++ resp.bodyText)))) ∧
    (∀ u2, consumerManagementUrl tlocal consumer
        ("/v3/edrs/" ++ tp ++ "/dataaddress") = Except.ok u2 →
      check_data_pull tlocal consumer tp resp =
        Except.error (ServiceError.httpError resp.status
          ("EDC error: " ++ resp.bodyText))) := by
  have h1 : catalog_request_curl tlocal consumer provider resp =
      Except.error (ServiceError.httpError resp.status
        ("EDC error: " ++ resp.bodyText)) := by
    unfold catalog_request_curl
    rw [hcu, hpu]
    simp [hkey, hs]
  refine ⟨h1, ?_, ?_⟩
  · unfold catalog_request
    rw [h1]
  · intro u2 hcu2
    have h2 : check_transfer_data_curl_pull tlocal consumer tp resp =
        Except.error (ServiceError.httpError resp.status
          ("EDC error: " ++ resp.bodyText)) := by
      unfold check_transfer_data_curl_pull
      rw [hcu2]
      simp [hkey, hs]
    unfold check_data_pull
    rw [h2]

/-- C7 witness: the concrete 404 upstream failure surfaces at service level
with status 404 and the upstream body. -/
theorem C7_upstream_error_surfacing_witness :
    catalog_request_curl true connB connA
        { status := 404, bodyText := "no catalog" } =
      Except.error (ServiceError.httpError 404 "EDC error: no catalog") :=
  (C7_upstream_error_surfacing true connB connA
    { status := 404, bodyText := "no catalog" } "tp1" _ _ rfl rfl rfl
    rfl).1

/-- C8 (counterexample): `create_connector` accepts and stores a `managed`
instance carrying neither a port set nor an endpoint set: the mode
invariant claimed for accepted instances is not enforced anywhere in the
creation path. -/
theorem C8_mode_invariant_not_enforced :
    create_connector [] [] connNoPorts = Except.ok [connNoPorts] ∧
    connNoPorts.mode = Mode.managed ∧
    connNoPorts.ports = none ∧ connNoPorts.endpoints_url = none := by
  decide

/-- C8 (amended): `create_connector` does not validate the mode/address
invariant at all; the only gate is the port-uniqueness check, and any
connector whose `ports` field is null — managed or remote, with or without
endpoints — skips even that and is inserted unconditionally. -/
theorem C8_no_ports_always_accepted (live : List Nat)
    (db : List Connector) (c : Connector) (h : c.ports = none) :
    create_connector live db c = Except.ok (db ++ [c]) := by
  simp [create_connector, check_ports_unique, h]

/-- C8 witness: the port-less managed connector is inserted after an
existing instance. -/
theorem C8_no_ports_always_accepted_witness :
    create_connector [] [connA] connNoPorts =
      Except.ok [connA, connNoPorts] :=
  C8_no_ports_always_accepted [] [connA] connNoPorts rfl

/-- C9: the keystore secret is module-level state generated once per
process (the `pw` argument fixed for every call in one process lifetime):
any two artifact generations in the same process protect their keystores
with the same `keytool` store password, and that same value is what each
instance's compose descriptor injects as `EDC_KEYSTORE_PASSWORD`. -/
theorem C9_shared_keystore_secret (pw : String) (ok1 ok2 : Bool)
    (fs1 fs2 : List String) (id1 id2 : String) :
    (_generate_files pw ok1 fs1 id1).keytoolStorepass =
      (_generate_files pw ok2 fs2 id2).keytoolStorepass ∧
    (_generate_files pw true fs1 id1).composeEnvPassword =
      (_generate_files pw true fs2 id2).composeEnvPassword ∧
    (_generate_files pw true fs1 id1).keytoolStorepass = some pw ∧
    (_generate_files pw true fs1 id1).composeEnvPassword = some pw := by
  refine ⟨?_, rfl, rfl, rfl⟩
  cases ok1 <;> cases ok2 <;> rfl

/-- C10: `delete_connector` with a missing runtime directory raises before
touching anything, so the stored record survives; with the directory
present, the directory is removed before the record deletion is attempted,
so a record-store failure at that point leaves the record stored while the
runtime artifacts are already gone. -/
theorem C10_delete_removes_artifacts_before_record (dbOk : Bool)
    (fs records : List String) (id : String) :
    (fs.contains id = false →
      delete_connector dbOk fs records id =
        { outcome := Except.error "Runtime folder does not exist",
          fs := fs, records := records }) ∧
    (fs.contains id = true →
      (delete_connector dbOk fs records id).fs.contains id = false ∧
      (dbOk = false →
        (delete_connector dbOk fs records id).records = records ∧
        (delete_connector dbOk fs records id).outcome =
          Except.error "record store failure")) := by
  constructor
  · intro h
    unfold delete_connector
    rw [if_neg]
    simp_all
  · intro h
    unfold delete_connector
    rw [if_pos h]
    constructor
    · cases dbOk with
      | false => exact contains_removeAll_self fs id
      | true =>
          cases hr : records.contains id with
          | true => simpa [hr] using contains_removeAll_self fs id
          | false => simpa [hr] using contains_removeAll_self fs id
    · intro hdb
      subst hdb
      exact ⟨rfl, rfl⟩

/-- C10 witness: a record-store failure during a delete of a provisioned
instance leaves the record present with its runtime directory already
removed. -/
theorem C10_delete_removes_artifacts_before_record_witness :
    (delete_connector false ["a1"] ["a1"] "a1").records = ["a1"] ∧
    (delete_connector false ["a1"] ["a1"] "a1").fs.contains "a1" = false :=
  ⟨(((C10_delete_removes_artifacts_before_record false ["a1"] ["a1"]
      "a1").2 rfl).2 rfl).1,
    ((C10_delete_removes_artifacts_before_record false ["a1"] ["a1"]
      "a1").2 rfl).1⟩

end EdcStudio
